import Mathlib

/-!
# fprintd manager: device registry and idle-shutdown coordinator

A shallow embedding of `src/manager.c`.  The manager keeps a singly linked
list of device objects (newest first), answers the two D-Bus queries
`GetDevices` and `GetDefaultDevice`, and owns one GLib timeout source that
ends the process when no device has been in use for `TIMEOUT` seconds.

Conventions of the embedding:

* a `GSList` is a `List`, head first; `g_slist_prepend` is `::`;
* pointers to `FpDevice` objects are natural numbers compared by equality;
* the GLib main context is reduced to the part the manager touches: the set
  of pending timeout sources, each with a source id and a deadline, and the
  counter from which source ids are handed out;
* the three preprocessor constants that live in `fprintd.h`
  (`FPRINT_SERVICE_PATH`, `TIMEOUT`, `FPRINT_ERROR_DBUS_INTERFACE`) are
  parameters of the definitions that use them;
* every callback takes the monotonic time `now` at which it is dispatched.
-/

namespace Fprintd

/-! ## Data model -/

/-- The error codes of the `FPRINT_ERROR` domain, in the order in which
`fprint_error_entries` lists them. -/
inductive FprintError where
  | CLAIM_DEVICE
  | ALREADY_IN_USE
  | INTERNAL
  | PERMISSION_DENIED
  | NO_ENROLLED_PRINTS
  | NO_ACTION_IN_PROGRESS
  | INVALID_FINGERNAME
  | NO_SUCH_DEVICE
deriving DecidableEq, Repr

/-- A `GError` of the `FPRINT_ERROR` domain: a code and a message. -/
structure GError where
  code : FprintError
  message : String
deriving DecidableEq, Repr

/-- An `FprintDevice` object as the manager sees it: the wrapped `FpDevice`
handle (property `dev`), the integer returned by `_fprint_device_get_id`, the
property `in-use`, and the object path at which the D-Bus skeleton is
exported (`none` while it is not exported). -/
structure FprintDevice where
  dev : Nat
  id : Int
  in_use : Bool
  object_path : Option String
deriving DecidableEq, Repr

/-- The fields of `FprintManagerPrivate` that the registry and the timer
logic read or write. -/
structure FprintManagerPrivate where
  dev_registry : List FprintDevice
  no_timeout : Bool
  timeout_id : Nat
deriving DecidableEq, Repr

/-- The pending timeout sources of the GLib main context, as pairs
`(source id, deadline)`, and the next source id to hand out. -/
structure GMainContext where
  next_id : Nat
  timeouts : List (Nat × Nat)
deriving DecidableEq, Repr

/-- The running service: the private data of the manager and the main
context its timers live in. -/
structure Daemon where
  priv : FprintManagerPrivate
  ctx : GMainContext
deriving DecidableEq, Repr

/-- What the enumeration source and the device objects can deliver to the
manager: a device appeared (`device-added`, with the handle and the identity
the new wrapper will report), a device vanished (`device-removed`), or the
`in-use` property of the device object with the given identity was set and
notified. -/
inductive Event where
  | device_added (device : Nat) (id : Int)
  | device_removed (device : Nat)
  | in_use_changed (id : Int) (in_use : Bool)
deriving DecidableEq, Repr

/-- An event together with the time at which the main loop dispatches it. -/
structure TimedEvent where
  time : Nat
  ev : Event
deriving DecidableEq, Repr

/-! ## GLib primitives -/

/-- A main context in which `allocated` source ids have been handed out
already and no timeout of the manager is pending.  Source ids start at 1. -/
def g_main_context_new (allocated : Nat) : GMainContext :=
  { next_id := allocated + 1, timeouts := [] }

/-- The call `g_timeout_add_seconds (interval, ...)` at time `now`: a new
source with a fresh id and deadline `now + interval`; the id is returned. -/
def g_timeout_add_seconds (ctx : GMainContext) (now interval : Nat) : Nat × GMainContext :=
  (ctx.next_id,
   { next_id := ctx.next_id + 1, timeouts := ctx.timeouts ++ [(ctx.next_id, now + interval)] })

/-- The call `g_source_remove (tag)`: the source with that id is destroyed. -/
def g_source_remove (ctx : GMainContext) (tag : Nat) : GMainContext :=
  { ctx with timeouts := ctx.timeouts.filter (fun s => s.1 != tag) }

/-- The conversion `%d` of `g_strdup_printf`. -/
def printf_d (n : Int) : String :=
  if n < 0 then "-" ++ Nat.repr n.natAbs else Nat.repr n.toNat

/-- The strings of a NULL-terminated array: everything before the first
NULL. -/
def strv : List (Option String) → List String
  | [] => []
  | none :: _ => []
  | some s :: rest => s :: strv rest

/-! ## The device wrapper -/

/-- Modelled from the spec: the constructor `fprint_device_new` is defined in
`device.c`, which is not part of the sources.  The new wrapper refers to the
given handle, reports the identity assigned to it, is not in use, and is not
exported yet. -/
def fprint_device_new (device : Nat) (id : Int) : FprintDevice :=
  { dev := device, id := id, in_use := false, object_path := none }

/-- The call `g_dbus_interface_skeleton_export`: afterwards the skeleton
reports `path` as its object path.  The export is taken to succeed, as the
source ignores its result. -/
def g_dbus_interface_skeleton_export (rdev : FprintDevice) (path : String) : FprintDevice :=
  { rdev with object_path := some path }

/-! ## manager.c -/

/-- Source `get_device_path`: `FPRINT_SERVICE_PATH "/Device/%d"` applied to the
identity of the device. -/
def get_device_path (FPRINT_SERVICE_PATH : String) (rdev : FprintDevice) : String :=
  FPRINT_SERVICE_PATH ++ "/Device/" ++ printf_d rdev.id

/-- The path at which `fprint_manager_constructed` exports the manager
object: `FPRINT_SERVICE_PATH "/Manager"`. -/
def manager_path (FPRINT_SERVICE_PATH : String) : String :=
  FPRINT_SERVICE_PATH ++ "/Manager"

/-- The counting loop of `fprint_manager_in_use_notified`. -/
def num_devices_used (registry : List FprintDevice) : Nat :=
  registry.foldl (fun n dev => if dev.in_use != false then n + 1 else n) 0

/-- Source `fprint_manager_in_use_notified`: remove the timeout stored in
`timeout_id` if there is one; return if `no_timeout`; otherwise count the
devices in use and, when there are none, add a timeout of `TIMEOUT` seconds
and store its id. -/
def fprint_manager_in_use_notified (TIMEOUT now : Nat) (p : Daemon) : Daemon :=
  let p1 : Daemon :=
    if p.priv.timeout_id > 0 then
      { priv := { p.priv with timeout_id := 0 },
        ctx := g_source_remove p.ctx p.priv.timeout_id }
    else p
  if p1.priv.no_timeout then p1
  else if num_devices_used p1.priv.dev_registry = 0 then
    let r := g_timeout_add_seconds p1.ctx now TIMEOUT
    { priv := { p1.priv with timeout_id := r.1 }, ctx := r.2 }
  else p1

/-- Source `device_added_cb`: wrap the device, prepend the wrapper to the
registry and export it at its device path.  (The handler connected to
`notify::in-use` is the `in_use_changed` case of `dispatch`.) -/
def device_added_cb (FPRINT_SERVICE_PATH : String) (p : Daemon) (device : Nat) (id : Int) :
    Daemon :=
  let rdev := fprint_device_new device id
  let path := get_device_path FPRINT_SERVICE_PATH rdev
  { p with priv := { p.priv with
      dev_registry := g_dbus_interface_skeleton_export rdev path :: p.priv.dev_registry } }

/-- The scan of `device_removed_cb`: walk the list, skip entries whose `dev`
differs from `device`, delete the first entry that matches and stop. -/
def delete_first_match (device : Nat) : List FprintDevice → List FprintDevice
  | [] => []
  | rdev :: rest =>
    if rdev.dev != device then rdev :: delete_first_match device rest else rest

/-- Source `device_removed_cb`: delete the first matching entry, then call
`fprint_manager_in_use_notified` whether or not an entry matched. -/
def device_removed_cb (TIMEOUT now : Nat) (p : Daemon) (device : Nat) : Daemon :=
  fprint_manager_in_use_notified TIMEOUT now
    { p with priv := { p.priv with
        dev_registry := delete_first_match device p.priv.dev_registry } }

/-- The device object with identity `id` sets its `in-use` property to
`in_use` and emits `notify::in-use`.  The handler
`fprint_manager_in_use_notified` is connected exactly for the wrappers that
are in the registry, so it runs when such a wrapper exists. -/
def in_use_changed (TIMEOUT now : Nat) (p : Daemon) (id : Int) (in_use : Bool) : Daemon :=
  let p1 : Daemon :=
    { p with priv := { p.priv with
        dev_registry := p.priv.dev_registry.map
          (fun d => if d.id = id then { d with in_use := in_use } else d) } }
  if p.priv.dev_registry.any (fun d => d.id == id) then
    fprint_manager_in_use_notified TIMEOUT now p1
  else p1

/-- One iteration of the main loop: the callback for the event runs to
completion. -/
def dispatch (FPRINT_SERVICE_PATH : String) (TIMEOUT : Nat) (p : Daemon) (e : TimedEvent) :
    Daemon :=
  match e.ev with
  | .device_added device id => device_added_cb FPRINT_SERVICE_PATH p device id
  | .device_removed device => device_removed_cb TIMEOUT e.time p device
  | .in_use_changed id v => in_use_changed TIMEOUT e.time p id v

/-- The events of a list dispatched one after the other. -/
def run (FPRINT_SERVICE_PATH : String) (TIMEOUT : Nat) (p : Daemon) (evs : List TimedEvent) :
    Daemon :=
  evs.foldl (dispatch FPRINT_SERVICE_PATH TIMEOUT) p

/-- Source `fprint_manager_constructed`, run by `g_object_new` on the
zero-filled private data: after the signal handlers are connected,
`fp_context_enumerate` iterates the main loop, and the callbacks for the
events delivered meanwhile run. -/
def fprint_manager_constructed (FPRINT_SERVICE_PATH : String) (TIMEOUT : Nat)
    (ctx : GMainContext) (enumeration : List TimedEvent) : Daemon :=
  run FPRINT_SERVICE_PATH TIMEOUT
    { priv := { dev_registry := [], no_timeout := false, timeout_id := 0 }, ctx := ctx }
    enumeration

/-- Source `fprint_manager_new`: construct the object, then store
`no_timeout` and, unless it is set, add a timeout and store its id. -/
def fprint_manager_new (FPRINT_SERVICE_PATH : String) (TIMEOUT : Nat) (ctx : GMainContext)
    (enumeration : List TimedEvent) (now : Nat) (no_timeout : Bool) : Daemon :=
  let object := fprint_manager_constructed FPRINT_SERVICE_PATH TIMEOUT ctx enumeration
  let p : Daemon := { object with priv := { object.priv with no_timeout := no_timeout } }
  if !p.priv.no_timeout then
    let r := g_timeout_add_seconds p.ctx now TIMEOUT
    { priv := { p.priv with timeout_id := r.1 }, ctx := r.2 }
  else p

/-- Source `fprint_manager_get_devices`: the object paths of the reversed
copy of the registry followed by the terminating NULL; always returns
TRUE. -/
def fprint_manager_get_devices (priv : FprintManagerPrivate) : Bool × List (Option String) :=
  let elem := priv.dev_registry.reverse
  (true, elem.map (fun dev_skeleton => dev_skeleton.object_path) ++ [none])

/-- Source `handle_get_devices`: the reply of the D-Bus method `GetDevices`
is the string array built by `fprint_manager_get_devices`. -/
def GetDevices (p : Daemon) : List String :=
  strv (fprint_manager_get_devices p.priv).2

/-- The three outputs of `fprint_manager_get_default_device`: the return
value, `*device` and `*error`. -/
structure DefaultDeviceResult where
  ret : Bool
  device : Option String
  error : Option GError
deriving DecidableEq, Repr

/-- Source `fprint_manager_get_default_device`: the object path of the last
element of the registry, or the error `FPRINT_ERROR_NO_SUCH_DEVICE` and a
NULL device when the registry is empty. -/
def fprint_manager_get_default_device (priv : FprintManagerPrivate) : DefaultDeviceResult :=
  let elem := priv.dev_registry
  let num_open := elem.length
  if num_open > 0 then
    match elem.getLast? with
    | some dev_skeleton => { ret := true, device := dev_skeleton.object_path, error := none }
    | none => { ret := true, device := none, error := none }
  else
    { ret := false, device := none,
      error := some { code := .NO_SUCH_DEVICE, message := "No devices available" } }

/-- Source `fprint_error_entries`: each entry pairs an error code with
`FPRINT_ERROR_DBUS_INTERFACE "." dbus_name`. -/
def fprint_error_entries (FPRINT_ERROR_DBUS_INTERFACE : String) : List (FprintError × String) :=
  [ (.CLAIM_DEVICE, FPRINT_ERROR_DBUS_INTERFACE ++ "." ++ "ClaimDevice"),
    (.ALREADY_IN_USE, FPRINT_ERROR_DBUS_INTERFACE ++ "." ++ "AlreadyInUse"),
    (.INTERNAL, FPRINT_ERROR_DBUS_INTERFACE ++ "." ++ "Internal"),
    (.PERMISSION_DENIED, FPRINT_ERROR_DBUS_INTERFACE ++ "." ++ "PermissionDenied"),
    (.NO_ENROLLED_PRINTS, FPRINT_ERROR_DBUS_INTERFACE ++ "." ++ "NoEnrolledPrints"),
    (.NO_ACTION_IN_PROGRESS, FPRINT_ERROR_DBUS_INTERFACE ++ "." ++ "NoActionInProgress"),
    (.INVALID_FINGERNAME, FPRINT_ERROR_DBUS_INTERFACE ++ "." ++ "InvalidFingername"),
    (.NO_SUCH_DEVICE, FPRINT_ERROR_DBUS_INTERFACE ++ "." ++ "NoSuchDevice") ]

/-- Source `fprint_manager_timeout_cb` calls `exit(0)`: the process has
ended by time `t` when the deadline of a pending timeout is at most `t`. -/
def exits_by (p : Daemon) (t : Nat) : Bool :=
  p.ctx.timeouts.any (fun s => s.2 ≤ t)

/-! ## Reference notions used by the statements -/

/-- The handles of the devices in the registry, newest first. -/
def registered_handles (p : Daemon) : List Nat :=
  p.priv.dev_registry.map (fun d => d.dev)

/-- Whether the list of events contains a device-vanished event for the
handle `device`. -/
def vanishes_in (device : Nat) (evs : List TimedEvent) : Bool :=
  evs.any (fun e =>
    match e.ev with
    | .device_removed d => d == device
    | _ => false)

/-- The devices that are still registered after a sequence of events, read
off the sequence alone: every device-appeared event that is not followed by a
device-vanished event for its handle, in the order of the device-appeared
events. -/
def still_registered : List TimedEvent → List (Nat × Int)
  | [] => []
  | e :: rest =>
    match e.ev with
    | .device_added device id =>
      if vanishes_in device rest then still_registered rest
      else (device, id) :: still_registered rest
    | _ => still_registered rest

/-- The object path of the device that appeared with the given handle and
identity. -/
def path_of (FPRINT_SERVICE_PATH : String) (a : Nat × Int) : String :=
  get_device_path FPRINT_SERVICE_PATH (fprint_device_new a.1 a.2)

/-- Whether an event is a device-appeared event. -/
def is_device_added : Event → Bool
  | .device_added _ _ => true
  | _ => false

/-- The single-timer condition: either no timeout is pending and `timeout_id`
is zero, or exactly one timeout is pending and `timeout_id` is its id. -/
def timer_tracked (p : Daemon) : Prop :=
  (p.priv.timeout_id = 0 ∧ p.ctx.timeouts = []) ∨
  (0 < p.priv.timeout_id ∧ p.ctx.timeouts.map Prod.fst = [p.priv.timeout_id])

/-- The condition that the timer logic keeps between events: source ids are
positive and below the next id to hand out, the single-timer condition holds,
and a timeout is pending exactly when timeouts are enabled and no registered
device is in use. -/
def coordinator_inv (p : Daemon) : Prop :=
  0 < p.ctx.next_id
  ∧ (∀ s ∈ p.ctx.timeouts, s.1 < p.ctx.next_id)
  ∧ timer_tracked p
  ∧ (p.ctx.timeouts ≠ [] ↔ (p.priv.no_timeout = false ∧ num_devices_used p.priv.dev_registry = 0))

/-- What it means that handling an event at time `t` took the daemon from
`p` to `q` and restarted the idle window: no timeout pending in `q` is one
that was pending in `p`; if no registered device is in use, exactly one
timeout is pending in `q`, with a fresh id and deadline `t + TIMEOUT`, and
otherwise none; hence the process does not exit before `t + TIMEOUT`. -/
def idle_window_restarted (TIMEOUT t : Nat) (p q : Daemon) : Prop :=
  (∀ s ∈ p.ctx.timeouts, ∀ s1 ∈ q.ctx.timeouts, s1.1 ≠ s.1)
  ∧ q.ctx.timeouts
      = (if num_devices_used q.priv.dev_registry = 0 then [(p.ctx.next_id, t + TIMEOUT)] else [])
  ∧ ∀ t1, t1 < t + TIMEOUT → exits_by q t1 = false

/-- The handle and identity under which a registry entry arrived. -/
def arrival (d : FprintDevice) : Nat × Int := (d.dev, d.id)

/-- Every entry of the registry is exported at its device path. -/
def exported_ok (FPRINT_SERVICE_PATH : String) (registry : List FprintDevice) : Prop :=
  ∀ d ∈ registry, d.object_path = some (get_device_path FPRINT_SERVICE_PATH d)

/-- The devices named by the device-appeared events of a sequence, in the
order of the events. -/
def appeared : List TimedEvent → List (Nat × Int)
  | [] => []
  | e :: rest =>
    match e.ev with
    | .device_added device id => (device, id) :: appeared rest
    | _ => appeared rest

/-- The names of the error kinds, in the order of the table. -/
def error_names : List String :=
  ["ClaimDevice", "AlreadyInUse", "Internal", "PermissionDenied", "NoEnrolledPrints",
   "NoActionInProgress", "InvalidFingername", "NoSuchDevice"]

/-! ## Lemmas -/

theorem strv_map_some (l : List String) (tail : List (Option String)) :
    strv (l.map some ++ none :: tail) = l := by
  induction l with
  | nil => rfl
  | cons a l ih => simp [strv, ih]

theorem num_devices_used_foldl (reg : List FprintDevice) (n : Nat) :
    reg.foldl (fun n dev => if dev.in_use != false then n + 1 else n) n
      = n + num_devices_used reg := by
  induction reg generalizing n with
  | nil => simp [num_devices_used]
  | cons d reg ih =>
    simp only [num_devices_used, List.foldl_cons]
    rw [ih, ih (if d.in_use != false then 0 + 1 else 0)]
    split <;> omega

theorem num_devices_used_cons (d : FprintDevice) (reg : List FprintDevice) :
    num_devices_used (d :: reg) = (if d.in_use then 1 else 0) + num_devices_used reg := by
  have h := num_devices_used_foldl reg (if d.in_use != false then 0 + 1 else 0)
  simp only [num_devices_used, List.foldl_cons] at h ⊢
  rw [h]
  cases d.in_use <;> simp

theorem registry_in_use_notified (T now : Nat) (p : Daemon) :
    (fprint_manager_in_use_notified T now p).priv.dev_registry = p.priv.dev_registry := by
  unfold fprint_manager_in_use_notified
  simp only
  split_ifs <;> rfl

theorem no_timeout_in_use_notified (T now : Nat) (p : Daemon) :
    (fprint_manager_in_use_notified T now p).priv.no_timeout = p.priv.no_timeout := by
  unfold fprint_manager_in_use_notified
  simp only
  split_ifs <;> rfl

theorem delete_first_match_eq_filter (device : Nat) (reg : List FprintDevice)
    (h : (reg.map (fun d => d.dev)).Nodup) :
    delete_first_match device reg = reg.filter (fun d => d.dev != device) := by
  induction reg with
  | nil => rfl
  | cons d reg ih =>
    simp only [List.map_cons, List.nodup_cons] at h
    by_cases hd : d.dev = device
    · have hrest : reg.filter (fun d => d.dev != device) = reg := by
        rw [List.filter_eq_self]
        intro x hx
        have : x.dev ≠ device := by
          intro hxd
          exact h.1 (List.mem_map.mpr ⟨x, hx, by rw [hxd, hd]⟩)
        simpa using this
      simp [delete_first_match, hd, hrest]
    · simp [delete_first_match, hd, ih h.2]

theorem delete_first_match_not_mem (device : Nat) (reg : List FprintDevice)
    (h : ∀ d ∈ reg, d.dev ≠ device) : delete_first_match device reg = reg := by
  induction reg with
  | nil => rfl
  | cons d reg ih =>
    have hd : d.dev ≠ device := h d (List.mem_cons_self _ _)
    simp [delete_first_match, hd, ih (fun x hx => h x (List.mem_cons_of_mem _ hx))]

theorem delete_first_match_subset (device : Nat) (reg : List FprintDevice) :
    ∀ d ∈ delete_first_match device reg, d ∈ reg := by
  induction reg with
  | nil => intro d hd; exact hd
  | cons x reg ih =>
    intro d hd
    simp only [delete_first_match] at hd
    split at hd
    · rcases List.mem_cons.mp hd with h | h
      · exact h ▸ List.mem_cons_self _ _
      · exact List.mem_cons_of_mem _ (ih d h)
    · exact List.mem_cons_of_mem _ hd

theorem registry_device_added (R : String) (p : Daemon) (device : Nat) (id : Int) :
    (device_added_cb R p device id).priv.dev_registry
      = { dev := device, id := id, in_use := false,
          object_path := some (get_device_path R (fprint_device_new device id)) }
        :: p.priv.dev_registry := rfl

theorem registry_device_removed (T now : Nat) (p : Daemon) (device : Nat) :
    (device_removed_cb T now p device).priv.dev_registry
      = delete_first_match device p.priv.dev_registry := by
  unfold device_removed_cb
  rw [registry_in_use_notified]

theorem registry_in_use_changed (T now : Nat) (p : Daemon) (id : Int) (v : Bool) :
    (in_use_changed T now p id v).priv.dev_registry
      = p.priv.dev_registry.map (fun d => if d.id = id then { d with in_use := v } else d) := by
  unfold in_use_changed
  simp only
  split_ifs
  · rw [registry_in_use_notified]
  · rfl

theorem run_cons (R : String) (T : Nat) (p : Daemon) (e : TimedEvent) (rest : List TimedEvent) :
    run R T p (e :: rest) = run R T (dispatch R T p e) rest := rfl

theorem arrival_dispatch (R : String) (T : Nat) (p : Daemon) (e : TimedEvent) :
    (dispatch R T p e).priv.dev_registry.map arrival =
      match e.ev with
      | .device_added device id => (device, id) :: p.priv.dev_registry.map arrival
      | .device_removed device => (delete_first_match device p.priv.dev_registry).map arrival
      | .in_use_changed _ _ => p.priv.dev_registry.map arrival := by
  obtain ⟨t, ev⟩ := e
  cases ev with
  | device_added device id => simp [dispatch, registry_device_added, arrival]
  | device_removed device => simp [dispatch, registry_device_removed]
  | in_use_changed id v =>
    simp only [dispatch, registry_in_use_changed, List.map_map]
    apply List.map_congr_left
    intro d _
    simp only [Function.comp, arrival]
    split <;> rfl

theorem exported_ok_dispatch (R : String) (T : Nat) (p : Daemon) (e : TimedEvent)
    (h : exported_ok R p.priv.dev_registry) :
    exported_ok R (dispatch R T p e).priv.dev_registry := by
  obtain ⟨t, ev⟩ := e
  cases ev with
  | device_added device id =>
    intro d hd
    simp only [dispatch, registry_device_added] at hd
    rcases List.mem_cons.mp hd with rfl | hd
    · rfl
    · exact h d hd
  | device_removed device =>
    intro d hd
    simp only [dispatch, registry_device_removed] at hd
    exact h d (delete_first_match_subset device _ d hd)
  | in_use_changed id v =>
    intro d hd
    simp only [dispatch, registry_in_use_changed, List.mem_map] at hd
    obtain ⟨x, hx, rfl⟩ := hd
    have := h x hx
    split
    · simpa [get_device_path] using this
    · exact this

theorem exported_ok_run (R : String) (T : Nat) (evs : List TimedEvent) :
    ∀ p : Daemon, exported_ok R p.priv.dev_registry →
      exported_ok R (run R T p evs).priv.dev_registry := by
  induction evs with
  | nil => intro p h; exact h
  | cons e rest ih =>
    intro p h
    rw [run_cons]
    exact ih _ (exported_ok_dispatch R T p e h)

theorem vanishes_in_added (device : Nat) (t d : Nat) (id : Int) (rest : List TimedEvent) :
    vanishes_in device (⟨t, .device_added d id⟩ :: rest) = vanishes_in device rest := by
  simp [vanishes_in]

theorem vanishes_in_removed (device : Nat) (t d : Nat) (rest : List TimedEvent) :
    vanishes_in device (⟨t, .device_removed d⟩ :: rest)
      = (d == device || vanishes_in device rest) := by
  simp [vanishes_in]

theorem vanishes_in_notified (device : Nat) (t : Nat) (id : Int) (v : Bool)
    (rest : List TimedEvent) :
    vanishes_in device (⟨t, .in_use_changed id v⟩ :: rest) = vanishes_in device rest := by
  simp [vanishes_in]

theorem registry_after_events (R : String) (T : Nat) (evs : List TimedEvent) :
    ∀ p : Daemon, (∀ k, (registered_handles (run R T p (evs.take k))).Nodup) →
      (run R T p evs).priv.dev_registry.map arrival
        = (still_registered evs).reverse
          ++ (p.priv.dev_registry.map arrival).filter (fun a => !vanishes_in a.1 evs) := by
  induction evs with
  | nil =>
    intro p _
    simp [run, still_registered, vanishes_in]
  | cons e rest ih =>
    intro p H
    have H0 : (p.priv.dev_registry.map (fun d => d.dev)).Nodup := by
      simpa [run, registered_handles] using H 0
    have Hrest : ∀ k, (registered_handles (run R T (dispatch R T p e) (rest.take k))).Nodup := by
      intro k
      simpa [run_cons] using H (k + 1)
    rw [run_cons, ih _ Hrest, arrival_dispatch]
    obtain ⟨t, ev⟩ := e
    cases ev with
    | device_added device id =>
      by_cases hv : vanishes_in device rest = true
      · simp [still_registered, vanishes_in_added, hv]
      · simp [still_registered, vanishes_in_added, hv]
    | device_removed device =>
      simp only [still_registered, vanishes_in_removed]
      rw [delete_first_match_eq_filter device _ H0]
      simp only [List.filter_map, List.filter_filter]
      congr 2
      apply List.filter_congr
      intro d _
      simp only [Function.comp, arrival]
      by_cases hd : d.dev = device
      · simp [hd]
      · have h1 : (d.dev != device) = true := by simpa using hd
        have h2 : (device == d.dev) = false := by simpa using fun h : device = d.dev => hd h.symm
        rw [h1, h2]
        simp
    | in_use_changed id v =>
      simp [still_registered, vanishes_in_notified]

theorem get_devices_exported (R : String) (p : Daemon)
    (h : exported_ok R p.priv.dev_registry) :
    GetDevices p = (p.priv.dev_registry.map arrival).reverse.map (path_of R) := by
  have hmap : p.priv.dev_registry.reverse.map (fun d => d.object_path)
      = ((p.priv.dev_registry.map arrival).reverse.map (path_of R)).map some := by
    rw [← List.map_reverse, List.map_map, List.map_map]
    apply List.map_congr_left
    intro d hd
    exact h d (List.mem_reverse.mp hd)
  simp only [GetDevices, fprint_manager_get_devices]
  rw [hmap, strv_map_some]

theorem default_device_exported (R : String) (priv : FprintManagerPrivate)
    (h : exported_ok R priv.dev_registry) (a : Nat × Int) (rest : List (Nat × Int))
    (hlast : (priv.dev_registry.map arrival).reverse = a :: rest) :
    fprint_manager_get_default_device priv
      = { ret := true, device := some (path_of R a), error := none } := by
  have hne : priv.dev_registry ≠ [] := by
    intro h0
    simp [h0] at hlast
  have hlen : 0 < priv.dev_registry.length := List.length_pos.mpr hne
  obtain ⟨d, hd⟩ : ∃ d, priv.dev_registry.getLast? = some d := by
    cases hl : priv.dev_registry.getLast? with
    | none => exact absurd (List.getLast?_eq_none_iff.mp hl) hne
    | some d => exact ⟨d, rfl⟩
  have hmem : d ∈ priv.dev_registry := List.mem_of_getLast?_eq_some hd
  have hhead : (priv.dev_registry.map arrival).reverse.head? = some (arrival d) := by
    rw [List.head?_reverse, List.getLast?_map, hd]
    rfl
  have ha : arrival d = a := by
    rw [hlast] at hhead
    simpa using hhead.symm
  simp only [fprint_manager_get_default_device, hlen, if_true, hd, h d hmem]
  rw [← ha]
  rfl

theorem take_mem_inits (evs : List TimedEvent) (k : Nat) : evs.take k ∈ evs.inits :=
  (List.mem_inits _ _).mpr ⟨evs.drop k, List.take_append_drop k evs⟩

theorem delete_first_match_sublist (device : Nat) (reg : List FprintDevice) :
    (delete_first_match device reg).Sublist reg := by
  induction reg with
  | nil => exact List.Sublist.slnil
  | cons d reg ih =>
    simp only [delete_first_match]
    split
    · exact List.Sublist.cons₂ _ ih
    · exact List.Sublist.cons _ (List.Sublist.refl _)

theorem registry_sublist_appeared (R : String) (T : Nat) (evs : List TimedEvent) :
    ∀ p : Daemon,
      ((run R T p evs).priv.dev_registry.map arrival).reverse.Sublist
        ((p.priv.dev_registry.map arrival).reverse ++ appeared evs) := by
  induction evs with
  | nil =>
    intro p
    simp [run, appeared]
  | cons e rest ih =>
    intro p
    rw [run_cons]
    refine (ih (dispatch R T p e)).trans ?_
    rw [arrival_dispatch]
    obtain ⟨t, ev⟩ := e
    cases ev with
    | device_added device id => simp [appeared]
    | device_removed device =>
      simp only [appeared]
      exact List.Sublist.append_right
        (((delete_first_match_sublist device _).map arrival).reverse) _
    | in_use_changed id v => simp [appeared]

theorem still_registered_sublist (evs : List TimedEvent) :
    (still_registered evs).Sublist (appeared evs) := by
  induction evs with
  | nil => exact List.Sublist.slnil
  | cons e rest ih =>
    obtain ⟨t, ev⟩ := e
    cases ev with
    | device_added device id =>
      simp only [still_registered, appeared]
      split
      · exact List.Sublist.cons _ ih
      · exact List.Sublist.cons₂ _ ih
    | device_removed device => simpa [still_registered, appeared] using ih
    | in_use_changed id v => simpa [still_registered, appeared] using ih

theorem string_append_left_cancel (a b c : String) (h : a ++ b = a ++ c) : b = c := by
  have hd := congrArg String.data h
  simp only [String.data_append] at hd
  exact String.ext (List.append_cancel_left hd)

/-! ## Lemmas about the timer -/

theorem num_devices_used_eq_length (reg : List FprintDevice) :
    num_devices_used reg = (reg.filter (fun d => d.in_use)).length := by
  induction reg with
  | nil => rfl
  | cons d reg ih =>
    rw [num_devices_used_cons, ih]
    cases h : d.in_use
    · simp [h]
    · simp [h]
      omega

theorem in_use_notified_of_tracked (T t : Nat) (p : Daemon) (h : timer_tracked p) :
    fprint_manager_in_use_notified T t p =
      if p.priv.no_timeout = false ∧ num_devices_used p.priv.dev_registry = 0 then
        { priv := { p.priv with timeout_id := p.ctx.next_id },
          ctx := { next_id := p.ctx.next_id + 1, timeouts := [(p.ctx.next_id, t + T)] } }
      else
        { priv := { p.priv with timeout_id := 0 }, ctx := { p.ctx with timeouts := [] } } := by
  obtain ⟨⟨reg, nt, tid⟩, ⟨nid, tos⟩⟩ := p
  rcases h with ⟨h0, hnil⟩ | ⟨hpos, hone⟩
  · simp only at h0 hnil
    subst h0 hnil
    cases nt <;> by_cases hc : num_devices_used reg = 0 <;>
      simp [fprint_manager_in_use_notified, g_timeout_add_seconds, hc]
  · simp only at hpos hone
    have hfilter : tos.filter (fun s => s.1 != tid) = [] := by
      rw [List.filter_eq_nil_iff]
      intro s hs
      have : s.1 ∈ tos.map Prod.fst := List.mem_map.mpr ⟨s, hs, rfl⟩
      rw [hone] at this
      simpa using this
    cases nt <;> by_cases hc : num_devices_used reg = 0 <;>
      simp [fprint_manager_in_use_notified, g_timeout_add_seconds, g_source_remove, hc, hpos,
        hfilter]

theorem coordinator_inv_in_use_notified (T t : Nat) (p : Daemon)
    (hpos : 0 < p.ctx.next_id) (h : timer_tracked p) :
    coordinator_inv (fprint_manager_in_use_notified T t p) := by
  rw [in_use_notified_of_tracked T t p h]
  split
  · rename_i hc
    refine ⟨by simp, by simp, Or.inr ⟨by simpa using hpos, by simp⟩, ?_⟩
    simpa using hc
  · rename_i hc
    refine ⟨by simpa using hpos, by simp, Or.inl ⟨rfl, rfl⟩, ?_⟩
    simpa using hc

theorem window_restarted_in_use_notified (T t : Nat) (p p1 : Daemon)
    (hlt : ∀ s ∈ p.ctx.timeouts, s.1 < p.ctx.next_id) (htr : timer_tracked p1)
    (hctx : p1.ctx = p.ctx) (hnt : p1.priv.no_timeout = false) :
    idle_window_restarted T t p (fprint_manager_in_use_notified T t p1) := by
  rw [in_use_notified_of_tracked T t p1 htr, hctx]
  split
  · rename_i hc
    refine ⟨?_, by simp [hc.2], ?_⟩
    · intro s hs s1 hs1
      simp only [List.mem_singleton] at hs1
      subst hs1
      exact Nat.ne_of_gt (hlt s hs)
    · intro t1 ht1
      simp only [exits_by, List.any_cons, List.any_nil, Bool.or_false, decide_eq_false_iff_not]
      omega
  · rename_i hc
    have hused : ¬ num_devices_used p1.priv.dev_registry = 0 := fun h0 => hc ⟨hnt, h0⟩
    refine ⟨by simp, by simp [hused], ?_⟩
    intro t1 _
    simp [exits_by]

theorem map_in_use_not_registered (reg : List FprintDevice) (id : Int) (v : Bool)
    (h : reg.any (fun d => d.id == id) = false) :
    reg.map (fun d => if d.id = id then { d with in_use := v } else d) = reg := by
  induction reg with
  | nil => rfl
  | cons d reg ih =>
    simp only [List.any_cons, Bool.or_eq_false_iff, beq_eq_false_iff_ne] at h
    simp [h.1, ih h.2]

theorem coordinator_inv_dispatch (R : String) (T : Nat) (p : Daemon) (e : TimedEvent)
    (h : coordinator_inv p) : coordinator_inv (dispatch R T p e) := by
  obtain ⟨t, ev⟩ := e
  cases ev with
  | device_added device id =>
    obtain ⟨h1, h2, h3, h4⟩ := h
    refine ⟨h1, h2, h3, ?_⟩
    simp only [dispatch, registry_device_added, num_devices_used_cons]
    simpa [device_added_cb] using h4
  | device_removed device =>
    exact coordinator_inv_in_use_notified T t _ h.1 h.2.2.1
  | in_use_changed id v =>
    simp only [dispatch, in_use_changed]
    split
    · exact coordinator_inv_in_use_notified T t _ h.1 h.2.2.1
    · rename_i hreg
      have hnone : p.priv.dev_registry.any (fun d => d.id == id) = false := by
        simpa using hreg
      rw [map_in_use_not_registered _ id v hnone]
      exact h

theorem no_timeout_dispatch (R : String) (T : Nat) (p : Daemon) (e : TimedEvent) :
    (dispatch R T p e).priv.no_timeout = p.priv.no_timeout := by
  obtain ⟨t, ev⟩ := e
  cases ev with
  | device_added device id => rfl
  | device_removed device => simp [dispatch, device_removed_cb, no_timeout_in_use_notified]
  | in_use_changed id v =>
    simp only [dispatch, in_use_changed]
    split
    · rw [no_timeout_in_use_notified]
    · rfl

theorem coordinator_inv_run (R : String) (T : Nat) (evs : List TimedEvent) :
    ∀ p : Daemon, coordinator_inv p →
      coordinator_inv (run R T p evs)
      ∧ (run R T p evs).priv.no_timeout = p.priv.no_timeout := by
  induction evs with
  | nil => intro p h; exact ⟨h, rfl⟩
  | cons e rest ih =>
    intro p h
    rw [run_cons]
    obtain ⟨h1, h2⟩ := ih _ (coordinator_inv_dispatch R T p e h)
    exact ⟨h1, h2.trans (no_timeout_dispatch R T p e)⟩

theorem run_added_only (R : String) (T : Nat) (evs : List TimedEvent) :
    ∀ p : Daemon, (∀ e ∈ evs, is_device_added e.ev = true) →
      (run R T p evs).ctx = p.ctx
      ∧ (run R T p evs).priv.no_timeout = p.priv.no_timeout
      ∧ (run R T p evs).priv.timeout_id = p.priv.timeout_id
      ∧ num_devices_used (run R T p evs).priv.dev_registry
          = num_devices_used p.priv.dev_registry := by
  induction evs with
  | nil => intro p _; exact ⟨rfl, rfl, rfl, rfl⟩
  | cons e rest ih =>
    intro p h
    have he := h e (List.mem_cons_self _ _)
    obtain ⟨h1, h2, h3, h4⟩ := ih (dispatch R T p e)
      (fun x hx => h x (List.mem_cons_of_mem _ hx))
    obtain ⟨t, ev⟩ := e
    cases ev with
    | device_added device id =>
      rw [run_cons]
      refine ⟨h1, h2, h3, ?_⟩
      rw [h4]
      simp [dispatch, registry_device_added, num_devices_used_cons]
    | device_removed device => simp [is_device_added] at he
    | in_use_changed id v => simp [is_device_added] at he

theorem coordinator_inv_new (R : String) (T allocated : Nat) (enumeration : List TimedEvent)
    (t0 : Nat) (no_timeout : Bool)
    (henum : ∀ e ∈ enumeration, is_device_added e.ev = true) :
    coordinator_inv
        (fprint_manager_new R T (g_main_context_new allocated) enumeration t0 no_timeout)
    ∧ (fprint_manager_new R T (g_main_context_new allocated) enumeration t0
        no_timeout).priv.no_timeout = no_timeout := by
  obtain ⟨h1, _, h3, h4⟩ := run_added_only R T enumeration
    { priv := { dev_registry := [], no_timeout := false, timeout_id := 0 },
      ctx := g_main_context_new allocated } henum
  have hctx : (fprint_manager_constructed R T (g_main_context_new allocated)
      enumeration).ctx = { next_id := allocated + 1, timeouts := [] } := h1
  have htid : (fprint_manager_constructed R T (g_main_context_new allocated)
      enumeration).priv.timeout_id = 0 := h3
  have hused : num_devices_used (fprint_manager_constructed R T (g_main_context_new allocated)
      enumeration).priv.dev_registry = 0 := h4
  unfold fprint_manager_new
  generalize fprint_manager_constructed R T (g_main_context_new allocated) enumeration = obj
    at hctx htid hused
  obtain ⟨⟨reg, nt0, tid⟩, ⟨nid, tos⟩⟩ := obj
  simp only [GMainContext.mk.injEq] at hctx htid hused
  obtain ⟨hnid, htos⟩ := hctx
  subst hnid htos htid
  cases no_timeout with
  | true =>
    refine ⟨⟨?_, ?_, Or.inl ⟨?_, ?_⟩, ?_⟩, rfl⟩ <;> simp
  | false =>
    refine ⟨⟨?_, ?_, Or.inr ⟨?_, ?_⟩, ?_⟩, rfl⟩ <;> simp [g_timeout_add_seconds, hused]

theorem no_timeout_plain_enumeration (R : String) (T allocated : Nat)
    (enumeration : List TimedEvent) (t0 : Nat) (evs : List TimedEvent)
    (henum : ∀ e ∈ enumeration, is_device_added e.ev = true) :
    (∀ pre ∈ enumeration.inits,
      (fprint_manager_constructed R T (g_main_context_new allocated) pre).ctx.timeouts = [])
    ∧ (run R T (fprint_manager_new R T (g_main_context_new allocated) enumeration t0 true)
        evs).ctx.timeouts = [] := by
  constructor
  · intro pre hpre
    obtain ⟨rest, hrest⟩ := (List.mem_inits _ _).mp hpre
    have hadd : ∀ e ∈ pre, is_device_added e.ev = true := by
      intro e he
      apply henum
      rw [← hrest]
      exact List.mem_append_left _ he
    have h := (run_added_only R T pre
      { priv := { dev_registry := [], no_timeout := false, timeout_id := 0 },
        ctx := g_main_context_new allocated } hadd).1
    have h2 : (fprint_manager_constructed R T (g_main_context_new allocated) pre).ctx
        = g_main_context_new allocated := h
    rw [h2]
    rfl
  · obtain ⟨hinv, hnt⟩ := coordinator_inv_new R T allocated enumeration t0 true henum
    obtain ⟨hrun, hnt2⟩ := coordinator_inv_run R T evs _ hinv
    by_contra hne
    have h := hrun.2.2.2.mp hne
    rw [hnt2, hnt] at h
    exact absurd h.1 (by decide)

/-! ## Registry and queries -/

/-- C1: starting from an empty registry, after any sequence of events in which
no handle is ever registered twice at the same time, GetDevices returns
exactly the paths of the devices that appeared and did not vanish afterwards,
in the order of their device-appeared events; that list is a subsequence of
the arrivals, so it does not depend on the order of removals; and a
device-vanished event whose handle matches no entry leaves the reply of
GetDevices as it was. -/
theorem get_devices_arrival_order (R : String) (T : Nat) (p0 : Daemon)
    (evs : List TimedEvent) (hempty : p0.priv.dev_registry = [])
    (hunique : ∀ pre ∈ evs.inits, (registered_handles (run R T p0 pre)).Nodup) :
    GetDevices (run R T p0 evs) = (still_registered evs).map (path_of R)
    ∧ (still_registered evs).Sublist (appeared evs)
    ∧ (fprint_manager_get_devices (run R T p0 evs).priv).1 = true
    ∧ ∀ (t device : Nat), (∀ d ∈ (run R T p0 evs).priv.dev_registry, d.dev ≠ device) →
        GetDevices (dispatch R T (run R T p0 evs) ⟨t, .device_removed device⟩)
          = GetDevices (run R T p0 evs) := by
  have hexp0 : exported_ok R p0.priv.dev_registry := by
    intro d hd
    rw [hempty] at hd
    cases hd
  have hexp := exported_ok_run R T evs p0 hexp0
  have hreg := registry_after_events R T evs p0
    (fun k => hunique _ (take_mem_inits evs k))
  refine ⟨?_, still_registered_sublist evs, rfl, ?_⟩
  · rw [get_devices_exported R _ hexp, hreg, hempty]
    simp
  · intro t device hno
    have hsame : (dispatch R T (run R T p0 evs) ⟨t, .device_removed device⟩).priv.dev_registry
        = (run R T p0 evs).priv.dev_registry := by
      simp only [dispatch, registry_device_removed]
      exact delete_first_match_not_mem device _ hno
    simp only [GetDevices, fprint_manager_get_devices, hsame]

/-- C1, an instance: devices 1, 2 and 3 appear with identities 5, 7 and 8,
device 1 vanishes, and a handle that was never registered vanishes. -/
theorem get_devices_arrival_order_witness :
    GetDevices (run "/net/reactivated/Fprint" 30
        (fprint_manager_new "/net/reactivated/Fprint" 30 (g_main_context_new 0) [] 0 false)
        [⟨1, .device_added 1 5⟩, ⟨2, .device_added 2 7⟩, ⟨3, .device_removed 1⟩,
         ⟨4, .device_removed 9⟩, ⟨5, .device_added 3 8⟩])
      = ["/net/reactivated/Fprint/Device/7", "/net/reactivated/Fprint/Device/8"] :=
  (get_devices_arrival_order "/net/reactivated/Fprint" 30
      (fprint_manager_new "/net/reactivated/Fprint" 30 (g_main_context_new 0) [] 0 false)
      [⟨1, .device_added 1 5⟩, ⟨2, .device_added 2 7⟩, ⟨3, .device_removed 1⟩,
       ⟨4, .device_removed 9⟩, ⟨5, .device_added 3 8⟩]
      (by rfl) (by decide)).1.trans (by decide)

/-- C2: starting from an empty registry, after any sequence of events that
leaves the registry non-empty, GetDefaultDevice succeeds, sets no error and
returns the path of the entry that comes first when the registered entries
are listed in the order of their device-appeared events; that path is the
first element of the reply of GetDevices; when no handle is ever registered
twice at the same time the listed entries are exactly the devices that
appeared and did not vanish afterwards; and after 5 and 7 appear and 5
vanishes the default device is the path of 7. -/
theorem default_device_is_oldest (R : String) (T : Nat) (p0 : Daemon)
    (evs : List TimedEvent) (hempty : p0.priv.dev_registry = [])
    (hne : (run R T p0 evs).priv.dev_registry ≠ []) :
    (∃ first rest,
      ((run R T p0 evs).priv.dev_registry.map arrival).reverse = first :: rest
      ∧ (first :: rest).Sublist (appeared evs)
      ∧ ((∀ pre ∈ evs.inits, (registered_handles (run R T p0 pre)).Nodup) →
          still_registered evs = first :: rest)
      ∧ fprint_manager_get_default_device (run R T p0 evs).priv
          = { ret := true, device := some (path_of R first), error := none }
      ∧ GetDevices (run R T p0 evs) = path_of R first :: rest.map (path_of R))
    ∧ ∀ (t1 t2 t3 h5 h7 : Nat), h5 ≠ h7 →
        fprint_manager_get_default_device
            (run R T p0 [⟨t1, .device_added h5 5⟩, ⟨t2, .device_added h7 7⟩,
              ⟨t3, .device_removed h5⟩]).priv
          = { ret := true, device := some (R ++ "/Device/" ++ "7"), error := none } := by
  have hexp0 : exported_ok R p0.priv.dev_registry := by
    intro d hd
    rw [hempty] at hd
    cases hd
  have hexp := exported_ok_run R T evs p0 hexp0
  have hsub := registry_sublist_appeared R T evs p0
  rw [hempty] at hsub
  simp only [List.map_nil, List.reverse_nil, List.nil_append] at hsub
  constructor
  · cases hs : ((run R T p0 evs).priv.dev_registry.map arrival).reverse with
    | nil =>
      simp only [List.reverse_eq_nil_iff, List.map_eq_nil_iff] at hs
      exact absurd hs hne
    | cons first rest =>
      refine ⟨first, rest, rfl, ?_, ?_, ?_, ?_⟩
      · rw [← hs]
        exact hsub
      · intro hunique
        have hreg := registry_after_events R T evs p0
          (fun k => hunique _ (take_mem_inits evs k))
        rw [hempty] at hreg
        simp only [List.map_nil, List.filter_nil, List.append_nil] at hreg
        rw [hreg, List.reverse_reverse] at hs
        exact hs
      · exact default_device_exported R _ hexp first rest hs
      · rw [get_devices_exported R _ hexp, hs]
        rfl
  · intro t1 t2 t3 h5 h7 hdiff
    have hfmt : printf_d 7 = "7" := by decide
    have hr : (run R T p0 [⟨t1, .device_added h5 5⟩, ⟨t2, .device_added h7 7⟩,
        ⟨t3, .device_removed h5⟩]).priv.dev_registry
        = [{ dev := h7, id := 7, in_use := false,
             object_path := some (R ++ "/Device/" ++ "7") }] := by
      simp only [run, List.foldl, dispatch, registry_device_removed, registry_device_added,
        hempty, delete_first_match, get_device_path, fprint_device_new, hfmt]
      have h2 : ¬ h7 = h5 := fun h => hdiff h.symm
      simp [g_dbus_interface_skeleton_export, h2]
    simp [fprint_manager_get_default_device, hr]

/-- C2, an instance: 5 and 7 appear, 5 vanishes. -/
theorem default_device_is_oldest_witness :
    fprint_manager_get_default_device
        (run "/net/reactivated/Fprint" 30
          (fprint_manager_new "/net/reactivated/Fprint" 30 (g_main_context_new 0) [] 0 false)
          [⟨1, .device_added 1 5⟩, ⟨2, .device_added 2 7⟩, ⟨3, .device_removed 1⟩]).priv
      = { ret := true, device := some ("/net/reactivated/Fprint" ++ "/Device/" ++ "7"),
          error := none } :=
  (default_device_is_oldest "/net/reactivated/Fprint" 30
      (fprint_manager_new "/net/reactivated/Fprint" 30 (g_main_context_new 0) [] 0 false)
      [⟨1, .device_added 1 5⟩, ⟨2, .device_added 2 7⟩, ⟨3, .device_removed 1⟩]
      (by rfl) (by decide)).2 1 2 3 1 2 (by decide)

/-- C3: GetDefaultDevice returns FALSE exactly when the registry is empty;
then the error is NO_SUCH_DEVICE with the message "No devices available" and
the device is NULL; when the registry is not empty it returns TRUE and sets no
error. -/
theorem default_device_fails_iff_empty (priv : FprintManagerPrivate) :
    ((fprint_manager_get_default_device priv).ret = false ↔ priv.dev_registry = [])
    ∧ (priv.dev_registry = [] →
        fprint_manager_get_default_device priv
          = { ret := false, device := none,
              error := some { code := .NO_SUCH_DEVICE, message := "No devices available" } })
    ∧ (priv.dev_registry ≠ [] →
        (fprint_manager_get_default_device priv).ret = true
        ∧ (fprint_manager_get_default_device priv).error = none) := by
  cases hreg : priv.dev_registry with
  | nil => simp [fprint_manager_get_default_device, hreg]
  | cons d reg =>
    have hlast : ∃ x, (d :: reg).getLast? = some x := by
      cases hl : (d :: reg).getLast? with
      | none => simp at hl
      | some x => exact ⟨x, rfl⟩
    obtain ⟨x, hx⟩ := hlast
    simp [fprint_manager_get_default_device, hreg, hx]

/-! ## The idle-shutdown timer -/

/-- The idle-arm invariant on plain constructions: after a construction whose
enumeration delivered device-appeared events only, and after any further sequence of device-appeared,
device-vanished and in-use-changed events, a shutdown timeout is pending
exactly when the manager was constructed with no_timeout false and no
registered device is in use; the count of the code is the number of entries
whose in-use flag is set; and a manager constructed with no_timeout false and
no devices has one timeout pending right away, due TIMEOUT seconds later. -/
theorem idle_arm_invariant (R : String) (T allocated : Nat) (enumeration : List TimedEvent)
    (t0 : Nat) (no_timeout : Bool) (evs : List TimedEvent)
    (henum : ∀ e ∈ enumeration, is_device_added e.ev = true) :
    ((run R T (fprint_manager_new R T (g_main_context_new allocated) enumeration t0 no_timeout)
        evs).ctx.timeouts ≠ []
      ↔ (no_timeout = false
          ∧ num_devices_used (run R T (fprint_manager_new R T (g_main_context_new allocated)
              enumeration t0 no_timeout) evs).priv.dev_registry = 0))
    ∧ (∀ reg : List FprintDevice,
        num_devices_used reg = (reg.filter (fun d => d.in_use)).length)
    ∧ (fprint_manager_new R T (g_main_context_new allocated) [] t0 false).ctx.timeouts
        = [(allocated + 1, t0 + T)] := by
  obtain ⟨hinv, hnt⟩ := coordinator_inv_new R T allocated enumeration t0 no_timeout henum
  obtain ⟨hrun, hnt2⟩ := coordinator_inv_run R T evs _ hinv
  refine ⟨?_, num_devices_used_eq_length, rfl⟩
  have h := hrun.2.2.2
  rw [hnt2, hnt] at h
  exact h

/-- An instance of the idle-arm invariant: two devices are present at construction, one of them
goes in use and is released again; a timeout is pending at the end. -/
theorem idle_arm_invariant_witness :
    (run "/net/reactivated/Fprint" 30
        (fprint_manager_new "/net/reactivated/Fprint" 30 (g_main_context_new 0)
          [⟨0, .device_added 1 5⟩, ⟨0, .device_added 2 7⟩] 1 false)
        [⟨5, .in_use_changed 5 true⟩, ⟨9, .in_use_changed 5 false⟩]).ctx.timeouts ≠ []
      ↔ (false = false
          ∧ num_devices_used (run "/net/reactivated/Fprint" 30
              (fprint_manager_new "/net/reactivated/Fprint" 30 (g_main_context_new 0)
                [⟨0, .device_added 1 5⟩, ⟨0, .device_added 2 7⟩] 1 false)
              [⟨5, .in_use_changed 5 true⟩, ⟨9, .in_use_changed 5 false⟩]).priv.dev_registry
            = 0) :=
  (idle_arm_invariant "/net/reactivated/Fprint" 30 0
    [⟨0, .device_added 1 5⟩, ⟨0, .device_added 2 7⟩] 1 false
    [⟨5, .in_use_changed 5 true⟩, ⟨9, .in_use_changed 5 false⟩] (by decide)).1

/-- C5, the code at the failing input: the manager is constructed with
no_timeout true; while the constructor enumerates, a device appears and
vanishes again.  The handler of the vanish event runs before no_timeout is
stored, so it starts a timeout; that timeout is still pending when the
constructor returns with no_timeout true, and the process exits when it
expires. -/
theorem no_timeout_timer_pending :
    (fprint_manager_constructed "/net/reactivated/Fprint" 30 (g_main_context_new 0)
        [⟨0, .device_added 1 5⟩, ⟨1, .device_removed 1⟩]).ctx.timeouts = [(1, 31)]
    ∧ (fprint_manager_new "/net/reactivated/Fprint" 30 (g_main_context_new 0)
        [⟨0, .device_added 1 5⟩, ⟨1, .device_removed 1⟩] 2 true).priv.no_timeout = true
    ∧ (fprint_manager_new "/net/reactivated/Fprint" 30 (g_main_context_new 0)
        [⟨0, .device_added 1 5⟩, ⟨1, .device_removed 1⟩] 2 true).ctx.timeouts = [(1, 31)]
    ∧ exits_by (fprint_manager_new "/net/reactivated/Fprint" 30 (g_main_context_new 0)
        [⟨0, .device_added 1 5⟩, ⟨1, .device_removed 1⟩] 2 true) 31 = true := by
  decide

/-- The idle-window reset on plain constructions: in every state reached
after a construction with no_timeout false whose enumeration delivered
device-appeared events only, handling at time t
a device-vanished event, or an in-use-changed notification of a registered
device whatever value it reports, restarts the idle window: the timeout that
was pending is gone, and if no registered device is in use one fresh timeout
with deadline t + TIMEOUT is pending, so the process does not exit before
t + TIMEOUT.  With devices 5 and 7 present, 7 idle throughout, and 5 reported
not in use at t1, in use at t2 and not in use at t3, the timeout pending
after t1 is due at t1 + TIMEOUT, none is pending after t2, and the one
pending after t3 is due at t3 + TIMEOUT. -/
theorem idle_window_reset (R : String) (T allocated : Nat) (enumeration : List TimedEvent)
    (t0 : Nat) (evs : List TimedEvent)
    (henum : ∀ e ∈ enumeration, is_device_added e.ev = true) :
    (∀ t device : Nat,
      idle_window_restarted T t
        (run R T (fprint_manager_new R T (g_main_context_new allocated) enumeration t0 false) evs)
        (dispatch R T
          (run R T (fprint_manager_new R T (g_main_context_new allocated) enumeration t0 false)
            evs)
          ⟨t, .device_removed device⟩))
    ∧ (∀ (t : Nat) (id : Int) (v : Bool),
      (∃ d ∈ (run R T (fprint_manager_new R T (g_main_context_new allocated) enumeration t0
          false) evs).priv.dev_registry, d.id = id) →
      idle_window_restarted T t
        (run R T (fprint_manager_new R T (g_main_context_new allocated) enumeration t0 false) evs)
        (dispatch R T
          (run R T (fprint_manager_new R T (g_main_context_new allocated) enumeration t0 false)
            evs)
          ⟨t, .in_use_changed id v⟩))
    ∧ (∀ t1 t2 t3 h5 h7 : Nat,
      (run R T (fprint_manager_new R T (g_main_context_new allocated)
          [⟨t0, .device_added h5 5⟩, ⟨t0, .device_added h7 7⟩] t0 false)
          [⟨t1, .in_use_changed 5 false⟩]).ctx.timeouts = [(allocated + 2, t1 + T)]
      ∧ (run R T (fprint_manager_new R T (g_main_context_new allocated)
          [⟨t0, .device_added h5 5⟩, ⟨t0, .device_added h7 7⟩] t0 false)
          [⟨t1, .in_use_changed 5 false⟩, ⟨t2, .in_use_changed 5 true⟩]).ctx.timeouts = []
      ∧ (run R T (fprint_manager_new R T (g_main_context_new allocated)
          [⟨t0, .device_added h5 5⟩, ⟨t0, .device_added h7 7⟩] t0 false)
          [⟨t1, .in_use_changed 5 false⟩, ⟨t2, .in_use_changed 5 true⟩,
           ⟨t3, .in_use_changed 5 false⟩]).ctx.timeouts = [(allocated + 3, t3 + T)]) := by
  obtain ⟨hinv, hnt⟩ := coordinator_inv_new R T allocated enumeration t0 false henum
  obtain ⟨hrun, hnt2⟩ := coordinator_inv_run R T evs _ hinv
  rw [hnt] at hnt2
  refine ⟨?_, ?_, ?_⟩
  · intro t device
    exact window_restarted_in_use_notified T t _ _ hrun.2.1 hrun.2.2.1 rfl hnt2
  · intro t id v hreg
    have hany : (run R T (fprint_manager_new R T (g_main_context_new allocated) enumeration t0
        false) evs).priv.dev_registry.any (fun d => d.id == id) = true := by
      obtain ⟨d, hd, hid⟩ := hreg
      exact List.any_eq_true.mpr ⟨d, hd, by simpa using hid⟩
    simp only [dispatch, in_use_changed, hany, if_true]
    exact window_restarted_in_use_notified T t _ _ hrun.2.1 hrun.2.2.1 rfl hnt2
  · intro t1 t2 t3 h5 h7
    simp [fprint_manager_new, fprint_manager_constructed, run, dispatch, device_added_cb,
      in_use_changed, fprint_manager_in_use_notified, g_timeout_add_seconds, g_source_remove,
      g_main_context_new, num_devices_used, fprint_device_new,
      g_dbus_interface_skeleton_export]

/-- An instance of the idle-window reset: the devices 5 and 7 are present at construction, 5 is in
use, and at time 50 the handle of 5 vanishes. -/
theorem idle_window_reset_witness :
    idle_window_restarted 30 50
      (run "/net/reactivated/Fprint" 30
        (fprint_manager_new "/net/reactivated/Fprint" 30 (g_main_context_new 0)
          [⟨0, .device_added 1 5⟩, ⟨0, .device_added 2 7⟩] 1 false)
        [⟨5, .in_use_changed 5 true⟩])
      (dispatch "/net/reactivated/Fprint" 30
        (run "/net/reactivated/Fprint" 30
          (fprint_manager_new "/net/reactivated/Fprint" 30 (g_main_context_new 0)
            [⟨0, .device_added 1 5⟩, ⟨0, .device_added 2 7⟩] 1 false)
          [⟨5, .in_use_changed 5 true⟩])
        ⟨50, .device_removed 1⟩) :=
  (idle_window_reset "/net/reactivated/Fprint" 30 0
    [⟨0, .device_added 1 5⟩, ⟨0, .device_added 2 7⟩] 1 [⟨5, .in_use_changed 5 true⟩]
    (by decide)).1 50 1

/-- C7, as the code has it: handling a device-appeared event puts the new
entry, not in use and exported at its device path, in front of the registry
list, so that it comes last in the array built for GetDevices, and does not
touch the timer: the main context, timeout_id and no_timeout are unchanged,
the count of devices in use is unchanged, and the time at which the process
would exit is unchanged. -/
theorem device_added_keeps_timer (R : String) (T : Nat) (p : Daemon) (t device : Nat)
    (id : Int) :
    (dispatch R T p ⟨t, .device_added device id⟩).priv.dev_registry
        = { dev := device, id := id, in_use := false,
            object_path := some (get_device_path R (fprint_device_new device id)) }
          :: p.priv.dev_registry
    ∧ (fprint_manager_get_devices (dispatch R T p ⟨t, .device_added device id⟩).priv).2
        = p.priv.dev_registry.reverse.map (fun d => d.object_path)
          ++ [some (get_device_path R (fprint_device_new device id)), none]
    ∧ (dispatch R T p ⟨t, .device_added device id⟩).ctx = p.ctx
    ∧ (dispatch R T p ⟨t, .device_added device id⟩).priv.timeout_id = p.priv.timeout_id
    ∧ (dispatch R T p ⟨t, .device_added device id⟩).priv.no_timeout = p.priv.no_timeout
    ∧ num_devices_used (dispatch R T p ⟨t, .device_added device id⟩).priv.dev_registry
        = num_devices_used p.priv.dev_registry
    ∧ ∀ t1, exits_by (dispatch R T p ⟨t, .device_added device id⟩) t1 = exits_by p t1 := by
  refine ⟨rfl, ?_, rfl, rfl, rfl, ?_, fun _ => rfl⟩
  · simp [fprint_manager_get_devices, dispatch, registry_device_added]
  · simp [dispatch, registry_device_added, num_devices_used_cons]

/-- C7, the claim as written fails: a manager constructed at time 0 with
TIMEOUT 30 and no devices has the timeout 1 pending, due at 30.  A device
appears at time 10.  Afterwards the same timeout is still pending, no timeout
due at 40 was started although timeouts are enabled and no device is in use,
and the process exits at 30. -/
theorem device_added_does_not_rearm :
    (fprint_manager_new "/net/reactivated/Fprint" 30 (g_main_context_new 0) [] 0
        false).ctx.timeouts = [(1, 30)]
    ∧ (dispatch "/net/reactivated/Fprint" 30
        (fprint_manager_new "/net/reactivated/Fprint" 30 (g_main_context_new 0) [] 0 false)
        ⟨10, .device_added 1 5⟩).ctx.timeouts = [(1, 30)]
    ∧ (dispatch "/net/reactivated/Fprint" 30
        (fprint_manager_new "/net/reactivated/Fprint" 30 (g_main_context_new 0) [] 0 false)
        ⟨10, .device_added 1 5⟩).priv.no_timeout = false
    ∧ num_devices_used (dispatch "/net/reactivated/Fprint" 30
        (fprint_manager_new "/net/reactivated/Fprint" 30 (g_main_context_new 0) [] 0 false)
        ⟨10, .device_added 1 5⟩).priv.dev_registry = 0
    ∧ ¬ (∃ s ∈ (dispatch "/net/reactivated/Fprint" 30
        (fprint_manager_new "/net/reactivated/Fprint" 30 (g_main_context_new 0) [] 0 false)
        ⟨10, .device_added 1 5⟩).ctx.timeouts, s.2 = 10 + 30)
    ∧ exits_by (dispatch "/net/reactivated/Fprint" 30
        (fprint_manager_new "/net/reactivated/Fprint" 30 (g_main_context_new 0) [] 0 false)
        ⟨10, .device_added 1 5⟩) 30 = true := by
  decide


/-! ## Object paths and the error table -/

/-- C8, as the code has it: the entry of a device with identity n is
exported at the service root followed by "/Device/" and n in decimal, while
the manager itself is at the service root followed by "/Manager"; after
construction without devices and one device-appeared event with identity n,
GetDevices is the list of that one path and GetDefaultDevice returns it; for
n = 5 the decimal part is "5". -/
theorem device_path_format (R : String) (T : Nat) (ctx : GMainContext) (t0 t : Nat)
    (no_timeout : Bool) (device : Nat) (n : Int) (p : Daemon) :
    get_device_path R (fprint_device_new device n) = R ++ "/Device/" ++ printf_d n
    ∧ printf_d n = toString n
    ∧ printf_d 5 = "5"
    ∧ manager_path R = R ++ "/Manager"
    ∧ (dispatch R T p ⟨t, .device_added device n⟩).priv.dev_registry
        = { dev := device, id := n, in_use := false,
            object_path := some (R ++ "/Device/" ++ printf_d n) } :: p.priv.dev_registry
    ∧ GetDevices (dispatch R T (fprint_manager_new R T ctx [] t0 no_timeout)
          ⟨t, .device_added device n⟩) = [R ++ "/Device/" ++ printf_d n]
    ∧ fprint_manager_get_default_device
        (dispatch R T (fprint_manager_new R T ctx [] t0 no_timeout)
          ⟨t, .device_added device n⟩).priv
        = { ret := true, device := some (R ++ "/Device/" ++ printf_d n), error := none } := by
  have hreg0 : (fprint_manager_new R T ctx [] t0 no_timeout).priv.dev_registry = [] := by
    cases no_timeout <;> rfl
  refine ⟨rfl, ?_, by decide, rfl, rfl, ?_, ?_⟩
  · cases n with
    | ofNat m =>
      have h : ¬ ((Int.ofNat m) < 0) := by simp
      simp only [printf_d, h, if_false]
      rfl
    | negSucc m =>
      have h : (Int.negSucc m) < 0 := Int.negSucc_lt_zero m
      simp only [printf_d, h, if_true]
      rfl
  · simp [GetDevices, fprint_manager_get_devices, dispatch, registry_device_added, hreg0,
      strv, get_device_path, fprint_device_new]
  · simp [fprint_manager_get_default_device, dispatch, registry_device_added, hreg0,
      get_device_path, fprint_device_new]

/-- C8, the claim as written fails: with the service root
"/net/reactivated/Fprint", after the device with identity 5 appears, the
replies name ".../Device/5", which is not ".../Manager/Device/5". -/
theorem device_path_not_under_manager :
    GetDevices (dispatch "/net/reactivated/Fprint" 30
        (fprint_manager_new "/net/reactivated/Fprint" 30 (g_main_context_new 0) [] 0 false)
        ⟨1, .device_added 1 5⟩) = ["/net/reactivated/Fprint/Device/5"]
    ∧ GetDevices (dispatch "/net/reactivated/Fprint" 30
        (fprint_manager_new "/net/reactivated/Fprint" 30 (g_main_context_new 0) [] 0 false)
        ⟨1, .device_added 1 5⟩) ≠ ["/net/reactivated/Fprint" ++ "/Manager/Device/" ++ "5"]
    ∧ (fprint_manager_get_default_device (dispatch "/net/reactivated/Fprint" 30
        (fprint_manager_new "/net/reactivated/Fprint" 30 (g_main_context_new 0) [] 0 false)
        ⟨1, .device_added 1 5⟩).priv).device
        ≠ some ("/net/reactivated/Fprint" ++ "/Manager/Device/" ++ "5") := by
  decide

/-- C9: the error table has 8 entries; their codes are the 8 error kinds in
the order of the source, their names are the interface name followed by "."
and ClaimDevice, AlreadyInUse, Internal, PermissionDenied, NoEnrolledPrints,
NoActionInProgress, InvalidFingername, NoSuchDevice in this order; the names
are pairwise distinct, as are the codes; and the code that GetDefaultDevice
raises on an empty registry has exactly one entry, named with ".NoSuchDevice". -/
theorem error_entries_table (iface : String) :
    (fprint_error_entries iface).length = 8
    ∧ (fprint_error_entries iface).map Prod.fst
        = [.CLAIM_DEVICE, .ALREADY_IN_USE, .INTERNAL, .PERMISSION_DENIED, .NO_ENROLLED_PRINTS,
           .NO_ACTION_IN_PROGRESS, .INVALID_FINGERNAME, .NO_SUCH_DEVICE]
    ∧ (fprint_error_entries iface).map Prod.snd
        = error_names.map (fun name => iface ++ "." ++ name)
    ∧ ((fprint_error_entries iface).map Prod.snd).Nodup
    ∧ ((fprint_error_entries iface).map Prod.fst).Nodup
    ∧ (∀ priv : FprintManagerPrivate, priv.dev_registry = [] →
        ((fprint_manager_get_default_device priv).error.map (fun e => e.code))
          = some FprintError.NO_SUCH_DEVICE)
    ∧ ((fprint_error_entries iface).filter (fun e => e.1 = FprintError.NO_SUCH_DEVICE)).map
          Prod.snd = [iface ++ "." ++ "NoSuchDevice"] := by
  have hnames : (fprint_error_entries iface).map Prod.snd
      = error_names.map (fun name => iface ++ "." ++ name) := rfl
  have hcodes : (fprint_error_entries iface).map Prod.fst
      = [.CLAIM_DEVICE, .ALREADY_IN_USE, .INTERNAL, .PERMISSION_DENIED, .NO_ENROLLED_PRINTS,
         .NO_ACTION_IN_PROGRESS, .INVALID_FINGERNAME, .NO_SUCH_DEVICE] := rfl
  refine ⟨rfl, hcodes, hnames, ?_, by rw [hcodes]; decide, ?_, ?_⟩
  · rw [hnames]
    apply List.Nodup.map
    · intro a b hab
      exact string_append_left_cancel (iface ++ ".") a b hab
    · decide
  · intro priv h
    simp [fprint_manager_get_default_device, h]
  · simp [fprint_error_entries]

/-! ## The construction window -/

/-- C10, the code at the failing input: the manager is constructed with
no_timeout false; while the constructor enumerates, a device appears and
vanishes again, and the handler of the vanish event starts timeout 1.  The
rest of the constructor starts timeout 2 and overwrites timeout_id, so two
timeouts are pending and the first is no longer referenced.  When a device
later goes in use the handler removes timeout 2 only; timeout 1 stays pending
with timeout_id zero and a device in use, and the process exits when it
expires. -/
theorem two_timers_pending :
    (fprint_manager_constructed "/net/reactivated/Fprint" 30 (g_main_context_new 0)
        [⟨0, .device_added 1 5⟩, ⟨1, .device_removed 1⟩]).ctx.timeouts = [(1, 31)]
    ∧ (fprint_manager_new "/net/reactivated/Fprint" 30 (g_main_context_new 0)
        [⟨0, .device_added 1 5⟩, ⟨1, .device_removed 1⟩] 2 false).ctx.timeouts
        = [(1, 31), (2, 32)]
    ∧ (fprint_manager_new "/net/reactivated/Fprint" 30 (g_main_context_new 0)
        [⟨0, .device_added 1 5⟩, ⟨1, .device_removed 1⟩] 2 false).priv.timeout_id = 2
    ∧ (run "/net/reactivated/Fprint" 30
        (fprint_manager_new "/net/reactivated/Fprint" 30 (g_main_context_new 0)
          [⟨0, .device_added 1 5⟩, ⟨1, .device_removed 1⟩] 2 false)
        [⟨3, .device_added 2 7⟩, ⟨4, .in_use_changed 7 true⟩]).ctx.timeouts = [(1, 31)]
    ∧ (run "/net/reactivated/Fprint" 30
        (fprint_manager_new "/net/reactivated/Fprint" 30 (g_main_context_new 0)
          [⟨0, .device_added 1 5⟩, ⟨1, .device_removed 1⟩] 2 false)
        [⟨3, .device_added 2 7⟩, ⟨4, .in_use_changed 7 true⟩]).priv.timeout_id = 0
    ∧ num_devices_used (run "/net/reactivated/Fprint" 30
        (fprint_manager_new "/net/reactivated/Fprint" 30 (g_main_context_new 0)
          [⟨0, .device_added 1 5⟩, ⟨1, .device_removed 1⟩] 2 false)
        [⟨3, .device_added 2 7⟩, ⟨4, .in_use_changed 7 true⟩]).priv.dev_registry = 1
    ∧ exits_by (run "/net/reactivated/Fprint" 30
        (fprint_manager_new "/net/reactivated/Fprint" 30 (g_main_context_new 0)
          [⟨0, .device_added 1 5⟩, ⟨1, .device_removed 1⟩] 2 false)
        [⟨3, .device_added 2 7⟩, ⟨4, .in_use_changed 7 true⟩]) 31 = true := by
  decide

/-- C4, the code at the failing input: the manager is constructed with
no_timeout false; while the constructor enumerates, a device appears and
vanishes again, so that timeout 1 is started inside the constructor and the
rest of the constructor starts timeout 2 over it.  Then a device with
identity 7 appears and goes in use.  In the state reached, timeout 1 is
pending although one registered device is in use, so a timeout is pending
while the count of devices in use is not zero.  A manager constructed with
no_timeout false and no devices does have its timeout pending right away. -/
theorem idle_arm_broken_after_constructor_events :
    (run "/net/reactivated/Fprint" 30
        (fprint_manager_new "/net/reactivated/Fprint" 30 (g_main_context_new 0)
          [⟨0, .device_added 1 5⟩, ⟨1, .device_removed 1⟩] 2 false)
        [⟨3, .device_added 2 7⟩, ⟨4, .in_use_changed 7 true⟩]).priv.no_timeout = false
    ∧ (run "/net/reactivated/Fprint" 30
        (fprint_manager_new "/net/reactivated/Fprint" 30 (g_main_context_new 0)
          [⟨0, .device_added 1 5⟩, ⟨1, .device_removed 1⟩] 2 false)
        [⟨3, .device_added 2 7⟩, ⟨4, .in_use_changed 7 true⟩]).ctx.timeouts ≠ []
    ∧ num_devices_used (run "/net/reactivated/Fprint" 30
        (fprint_manager_new "/net/reactivated/Fprint" 30 (g_main_context_new 0)
          [⟨0, .device_added 1 5⟩, ⟨1, .device_removed 1⟩] 2 false)
        [⟨3, .device_added 2 7⟩, ⟨4, .in_use_changed 7 true⟩]).priv.dev_registry ≠ 0
    ∧ ¬ ((run "/net/reactivated/Fprint" 30
          (fprint_manager_new "/net/reactivated/Fprint" 30 (g_main_context_new 0)
            [⟨0, .device_added 1 5⟩, ⟨1, .device_removed 1⟩] 2 false)
          [⟨3, .device_added 2 7⟩, ⟨4, .in_use_changed 7 true⟩]).ctx.timeouts ≠ []
        ↔ (false = false
            ∧ num_devices_used (run "/net/reactivated/Fprint" 30
                (fprint_manager_new "/net/reactivated/Fprint" 30 (g_main_context_new 0)
                  [⟨0, .device_added 1 5⟩, ⟨1, .device_removed 1⟩] 2 false)
                [⟨3, .device_added 2 7⟩, ⟨4, .in_use_changed 7 true⟩]).priv.dev_registry
              = 0))
    ∧ (fprint_manager_new "/net/reactivated/Fprint" 30 (g_main_context_new 0) [] 0
        false).ctx.timeouts = [(1, 30)] := by
  decide

/-- C6, the code at the failing input: the manager is constructed with
no_timeout false; while the constructor enumerates, a device appears and
vanishes again, so that the constructor returns with the timeouts 1 and 2
pending and timeout_id 2.  A device-vanished event is handled at time 20.
The handler removes timeout 2 and starts timeout 3, due at 50, but timeout 1,
due at 31, was pending before and is still pending afterwards; the process
exits at 31, earlier than 20 + 30, and the idle window was not restarted. -/
theorem idle_window_not_reset_after_constructor_events :
    (fprint_manager_new "/net/reactivated/Fprint" 30 (g_main_context_new 0)
        [⟨0, .device_added 1 5⟩, ⟨1, .device_removed 1⟩] 2 false).priv.no_timeout = false
    ∧ (fprint_manager_new "/net/reactivated/Fprint" 30 (g_main_context_new 0)
        [⟨0, .device_added 1 5⟩, ⟨1, .device_removed 1⟩] 2 false).ctx.timeouts
        = [(1, 31), (2, 32)]
    ∧ (dispatch "/net/reactivated/Fprint" 30
        (fprint_manager_new "/net/reactivated/Fprint" 30 (g_main_context_new 0)
          [⟨0, .device_added 1 5⟩, ⟨1, .device_removed 1⟩] 2 false)
        ⟨20, .device_removed 9⟩).ctx.timeouts = [(1, 31), (3, 50)]
    ∧ num_devices_used (dispatch "/net/reactivated/Fprint" 30
        (fprint_manager_new "/net/reactivated/Fprint" 30 (g_main_context_new 0)
          [⟨0, .device_added 1 5⟩, ⟨1, .device_removed 1⟩] 2 false)
        ⟨20, .device_removed 9⟩).priv.dev_registry = 0
    ∧ exits_by (dispatch "/net/reactivated/Fprint" 30
        (fprint_manager_new "/net/reactivated/Fprint" 30 (g_main_context_new 0)
          [⟨0, .device_added 1 5⟩, ⟨1, .device_removed 1⟩] 2 false)
        ⟨20, .device_removed 9⟩) 31 = true
    ∧ ¬ idle_window_restarted 30 20
        (fprint_manager_new "/net/reactivated/Fprint" 30 (g_main_context_new 0)
          [⟨0, .device_added 1 5⟩, ⟨1, .device_removed 1⟩] 2 false)
        (dispatch "/net/reactivated/Fprint" 30
          (fprint_manager_new "/net/reactivated/Fprint" 30 (g_main_context_new 0)
            [⟨0, .device_added 1 5⟩, ⟨1, .device_removed 1⟩] 2 false)
          ⟨20, .device_removed 9⟩) := by
  refine ⟨by decide, by decide, by decide, by decide, by decide, ?_⟩
  intro h
  have hlate := h.2.2 31 (by decide)
  exact absurd hlate (by decide)

end Fprintd
